/-
Verification of the MeshTool command-dispatch server
(src/MeshTool/mesh_tool.py) against its specification.

The Python module maintains a registry `self.meshes : Dict[str, Trimesh]`
and dispatches JSON commands to handler methods.  We embed the handlers
shallowly:

* A mesh is a list of rational 3D vertices plus triangular faces
  (`trimesh.Trimesh`); machine floats are modelled by `ℚ`.
* The registry is a Python dict: an association list with unique keys,
  insertion order preserved, `insert` replacing the value in place when
  the key exists, `erase` removing it, `size` = `len`.
* Every call into the external geometry libraries (trimesh primitives,
  smoothing, booleans, manifold3d, Blender, shapely/extrusion, export,
  file I/O, bounds/volume/area statistics, axis-angle rotation matrices)
  is a field of an `Env` record: those routines are external collaborators
  whose code is not in this repository.  Fallible library calls are
  `Except String`-valued, mirroring raised exceptions.
* Matrix application and mesh concatenation are concrete, faithful to
  `Trimesh.apply_transform` (affine 4x4 times homogeneous vertex) and
  `trimesh.util.concatenate` (append vertices, offset faces).
* `Trimesh.process()` repairs a mesh IN PLACE and returns `self`; since
  the local variables alias the registry entries, the embedding writes
  the processed meshes back into the registry at the operand keys.
-/
import Mathlib

namespace MeshTool

/-- A 3D point or vector with rational coordinates. -/
abbrev Vec3 := ℚ × ℚ × ℚ

/-- Componentwise addition of 3D vectors. -/
def vadd (a b : Vec3) : Vec3 := (a.1 + b.1, a.2.1 + b.2.1, a.2.2 + b.2.2)

/-- A triangle mesh: vertex positions plus triangular faces given by
vertex indices (`trimesh.Trimesh(vertices=…, faces=…)`). -/
structure Mesh where
  vertices : List Vec3
  faces : List (Nat × Nat × Nat)
deriving Repr, DecidableEq

/-- A 4x4 matrix of rationals (`np.ndarray` of shape (4,4)). -/
structure Mat4 where
  a00 : ℚ
  a01 : ℚ
  a02 : ℚ
  a03 : ℚ
  a10 : ℚ
  a11 : ℚ
  a12 : ℚ
  a13 : ℚ
  a20 : ℚ
  a21 : ℚ
  a22 : ℚ
  a23 : ℚ
  a30 : ℚ
  a31 : ℚ
  a32 : ℚ
  a33 : ℚ
deriving Repr, DecidableEq

/-- Affine action of a 4x4 matrix on a 3D point (homogeneous coordinate 1),
as performed by `Trimesh.apply_transform` for the affine matrices built in
this module. -/
def Mat4.applyToPoint (M : Mat4) (v : Vec3) : Vec3 :=
  (M.a00 * v.1 + M.a01 * v.2.1 + M.a02 * v.2.2 + M.a03,
   M.a10 * v.1 + M.a11 * v.2.1 + M.a12 * v.2.2 + M.a13,
   M.a20 * v.1 + M.a21 * v.2.1 + M.a22 * v.2.2 + M.a23)

/-- `mesh.apply_transform(matrix)`: transform every vertex. -/
def Mesh.apply_transform (m : Mesh) (M : Mat4) : Mesh :=
  { m with vertices := m.vertices.map M.applyToPoint }

/-- `mesh.apply_translation(t)`: translate every vertex. -/
def Mesh.apply_translation (m : Mesh) (t : Vec3) : Mesh :=
  { m with vertices := m.vertices.map (vadd t) }

/-- `mesh_a + mesh_b` (`trimesh.util.concatenate`): append the vertex
arrays and append the second face array with indices offset by the first
vertex count. -/
def Mesh.concat (a b : Mesh) : Mesh :=
  { vertices := a.vertices ++ b.vertices,
    faces := a.faces ++ b.faces.map
      (fun f => (f.1 + a.vertices.length, f.2.1 + a.vertices.length, f.2.2 + a.vertices.length)) }

/-- `np.eye(4)` followed by `transform[:3,:3] *= s`: a uniform scale about
the origin (bottom row left untouched). -/
def scaleEye (s : ℚ) : Mat4 :=
  ⟨s, 0, 0, 0, 0, s, 0, 0, 0, 0, s, 0, 0, 0, 0, 1⟩

/-- `np.eye(4)` with the three diagonal entries set from a vector:
non-uniform scale about the origin. -/
def scaleDiag (v : Vec3) : Mat4 :=
  ⟨v.1, 0, 0, 0, 0, v.2.1, 0, 0, 0, 0, v.2.2, 0, 0, 0, 0, 1⟩

/-! ## The mesh registry (`self.meshes : Dict[str, trimesh.Trimesh]`)

A Python dict with string keys: lookup finds the (unique) entry, insert
replaces the value in place when the key is present and appends otherwise,
erase removes the entry, size is `len`. -/

/-- First-match lookup in an entry list. -/
def lookupEntries : List (String × Mesh) → String → Option Mesh
  | [], _ => none
  | (k, v) :: rest, key => if k = key then some v else lookupEntries rest key

/-- Dict assignment `d[key] = v`: replace in place, else append. -/
def insertEntries : List (String × Mesh) → String → Mesh → List (String × Mesh)
  | [], key, v => [(key, v)]
  | (k, w) :: rest, key, v =>
      if k = key then (key, v) :: rest else (k, w) :: insertEntries rest key v

/-- Dict deletion `del d[key]`: drop the entry. -/
def eraseEntries : List (String × Mesh) → String → List (String × Mesh)
  | [], _ => []
  | (k, w) :: rest, key =>
      if k = key then rest else (k, w) :: eraseEntries rest key

/-- The mesh registry `self.meshes`. -/
structure Registry where
  entries : List (String × Mesh)
deriving Repr, DecidableEq

def Registry.lookup (r : Registry) (k : String) : Option Mesh :=
  lookupEntries r.entries k

def Registry.insert (r : Registry) (k : String) (v : Mesh) : Registry :=
  ⟨insertEntries r.entries k v⟩

def Registry.erase (r : Registry) (k : String) : Registry :=
  ⟨eraseEntries r.entries k⟩

/-- `len(self.meshes)`. -/
def Registry.size (r : Registry) : Nat :=
  r.entries.length

/-- `list(self.meshes.keys())`. -/
def Registry.keys (r : Registry) : List String :=
  r.entries.map Prod.fst

/-- `key in self.meshes`, also covering Python `None` keys
(`None` is never a dict key here, all keys are strings). -/
def Registry.lookupOpt (r : Registry) : Option String → Option Mesh
  | none => none
  | some k => r.lookup k

theorem lookupEntries_insertEntries_self (l : List (String × Mesh)) (k : String) (v : Mesh) :
    lookupEntries (insertEntries l k v) k = some v := by
  induction l with
  | nil => simp [insertEntries, lookupEntries]
  | cons hd tl ih =>
      obtain ⟨k', w⟩ := hd
      by_cases h : k' = k
      · simp [insertEntries, lookupEntries, h]
      · simp [insertEntries, lookupEntries, h, ih]

theorem lookupEntries_insertEntries_ne (l : List (String × Mesh)) (k k' : String) (v : Mesh)
    (h : k' ≠ k) : lookupEntries (insertEntries l k v) k' = lookupEntries l k' := by
  induction l with
  | nil => simp [insertEntries, lookupEntries, Ne.symm h]
  | cons hd tl ih =>
      obtain ⟨k0, w⟩ := hd
      by_cases h0 : k0 = k
      · subst h0
        simp [insertEntries, lookupEntries, Ne.symm h]
      · simp [insertEntries, lookupEntries, h0, ih]

theorem keys_insertEntries_of_mem (l : List (String × Mesh)) (k : String) (v v0 : Mesh)
    (h : lookupEntries l k = some v0) :
    (insertEntries l k v).map Prod.fst = l.map Prod.fst := by
  induction l with
  | nil => simp [lookupEntries] at h
  | cons hd tl ih =>
      obtain ⟨k0, w⟩ := hd
      by_cases h0 : k0 = k
      · simp [insertEntries, h0]
      · simp [lookupEntries, h0] at h
        simp [insertEntries, h0, ih h]

theorem Registry.lookup_insert_self (r : Registry) (k : String) (v : Mesh) :
    (r.insert k v).lookup k = some v :=
  lookupEntries_insertEntries_self r.entries k v

theorem Registry.lookup_insert_ne (r : Registry) (k k' : String) (v : Mesh) (h : k' ≠ k) :
    (r.insert k v).lookup k' = r.lookup k' :=
  lookupEntries_insertEntries_ne r.entries k k' v h

theorem Registry.keys_insert_of_mem (r : Registry) (k : String) (v v0 : Mesh)
    (h : r.lookup k = some v0) :
    (r.insert k v).keys = r.keys :=
  keys_insertEntries_of_mem r.entries k v v0 h

/-! ## Command parameters and responses -/

/-- The `scale` parameter of `transform_mesh`: a scalar (uniform) or a
3-vector (non-uniform), mirroring the `isinstance(scale, (int, float))`
dispatch in the source. -/
inductive ScaleParam where
  | uniform (s : ℚ)
  | triple (v : Vec3)
deriving Repr, DecidableEq

/-- The `rotate` parameter of `transform_mesh`: a dict that may carry
`axis` and `angle` keys (the source checks both for presence). -/
structure RotateParam where
  axis : Option Vec3 := none
  angle : Option ℚ := none
deriving Repr, DecidableEq

/-- The decoded `params` object of a command.  Every key any handler reads
via `params.get(…)` appears as an optional field; an absent key is `none`.
Numeric JSON values are rationals, vectors are typed at their expected
arity (shape validation of the decoded JSON is the transport collaborator's
concern, out of scope per the spec). -/
structure Params where
  mesh_id : Option String := none
  mesh_a : Option String := none
  mesh_b : Option String := none
  operation : Option String := none
  result_id : Option String := none
  «type» : Option String := none
  extents : Option (List ℚ) := none
  radius : Option ℚ := none
  subdivisions : Option Nat := none
  height : Option ℚ := none
  sections : Option Nat := none
  transform : Option Mat4 := none
  translate : Option Vec3 := none
  rotate : Option RotateParam := none
  scale : Option ScaleParam := none
  distance : Option ℚ := none
  polygon : Option (List (ℚ × ℚ)) := none
  format : Option String := none
  filename : Option String := none
  output_dir : Option String := none
  major_radius : Option ℚ := none
  minor_radius : Option ℚ := none
  major_sections : Option Nat := none
  minor_sections : Option Nat := none
deriving Repr, DecidableEq

/-- A decoded command message: `data.get("command")` and
`data.get("params", {})`. -/
structure CommandData where
  command : Option String := none
  params : Params := {}
deriving Repr, DecidableEq

/-- One entry of the `list_meshes` response. -/
structure MeshSummary where
  id : String
  vertices_count : Nat
  faces_count : Nat
  bounds : Vec3 × Vec3
deriving Repr, DecidableEq

/-- The decoded response object.  `success` is always present; every other
field is optional and `none` when the handler does not emit it. -/
structure Response where
  success : Bool
  error : Option String := none
  mesh_id : Option String := none
  result_id : Option String := none
  vertices_count : Option Nat := none
  faces_count : Option Nat := none
  bounds : Option (Vec3 × Vec3) := none
  volume : Option ℚ := none
  surface_area : Option ℚ := none
  is_watertight : Option Bool := none
  center_mass : Option Vec3 := none
  format : Option String := none
  data : Option String := none
  vertices : Option (List Vec3) := none
  faces : Option (List (Nat × Nat × Nat)) := none
  normals : Option (List Vec3) := none
  filepath : Option String := none
  file_size : Option Nat := none
  message : Option String := none
  meshes : Option (List MeshSummary) := none
  total_count : Option Nat := none
deriving Repr, DecidableEq

/-- A failure response `{"success": False, "error": e}`. -/
def Response.fail (e : String) : Response :=
  { success := false, error := some e }

/-- Python string interpolation of an optional string: `f"{x}"` prints
`None` for an absent value. -/
def pyOptStr : Option String → String
  | none => "None"
  | some s => s

/-! ## The external geometry backends

A boolean backend (Blender, or trimesh's built-in booleans) may return a
single mesh, a multi-part `Scene` (a keyed container of geometries, listed
in its own key order), or Python `None`. -/

/-- Result shape of a boolean backend call. -/
inductive BoolResult where
  | single (m : Mesh)
  | scene (parts : List (String × Mesh))
  | null
deriving Repr, DecidableEq

/-- Every call into external libraries, collected as one environment.
Fallible calls (ones the source wraps in `try`) return `Except String`,
the error being the exception's string. -/
structure Env where
  /-- `trimesh.primitives.Box(extents=e)` -/
  box : List ℚ → Mesh
  /-- `trimesh.primitives.Sphere(radius, subdivisions)` -/
  sphere : ℚ → Nat → Mesh
  /-- `trimesh.primitives.Cylinder(radius, height, sections)` -/
  cylinder : ℚ → ℚ → Nat → Mesh
  /-- `trimesh.primitives.Capsule(radius, height)` -/
  capsule : ℚ → ℚ → Mesh
  /-- the parametric torus built from numpy trigonometry
  (major_radius, minor_radius, major_sections, minor_sections) -/
  torus : ℚ → ℚ → Nat → Nat → Mesh
  /-- `trimesh.creation.icosphere(subdivisions, radius)` -/
  icosphere : Nat → ℚ → Mesh
  /-- `mesh.smoothed()` (returns a new mesh) -/
  smoothed : Mesh → Mesh
  /-- `trimesh.transformations.rotation_matrix(angle, axis)` -/
  rotation_matrix : ℚ → Vec3 → Mat4
  /-- `mesh.bounds` as (min corner, max corner) -/
  bounds : Mesh → Vec3 × Vec3
  /-- `mesh.volume` -/
  volume : Mesh → ℚ
  /-- `mesh.area` -/
  area : Mesh → ℚ
  /-- `mesh.is_watertight` -/
  is_watertight : Mesh → Bool
  /-- `mesh.center_mass` -/
  center_mass : Mesh → Vec3
  /-- `mesh.vertex_normals` -/
  vertex_normals : Mesh → List Vec3
  /-- `shapely.geometry.Polygon` + `trimesh.creation.extrude_polygon` -/
  extrudePolygon : List (ℚ × ℚ) → ℚ → Except String Mesh
  /-- `mesh.export(file_type=fmt)` to an in-memory buffer -/
  exportData : String → Mesh → Except String String
  /-- `base64.b64encode(...).decode()` -/
  b64 : String → String
  /-- `os.path.abspath` -/
  abspath : String → String
  /-- `os.makedirs` + `mesh.export(filepath)` + `os.path.getsize`:
  write to disk, return the byte size -/
  saveFile : String → Mesh → Except String Nat
  /-- `mesh.process()`: repair/clean; mutates the mesh in place and
  returns it.  Modelled as the function from old to new contents. -/
  process : Mesh → Mesh
  /-- whether `import manifold3d` succeeds -/
  manifoldAvailable : Bool
  /-- the manifold3d round trip (`Manifold` construction with dtype
  coercion, `+`/`-`/`^`, `to_mesh`, `trimesh.Trimesh`), keyed by the
  operation string -/
  manifoldBoolean : String → Mesh → Mesh → Except String Mesh
  /-- `trimesh.interfaces.blender.exists` -/
  blenderExists : Bool
  /-- `trimesh.interfaces.blender.boolean([a, b], operation=op)` -/
  blenderBoolean : String → Mesh → Mesh → Except String BoolResult
  /-- `mesh_a.union/difference/intersection(mesh_b)`, keyed by the
  operation string -/
  trimeshBoolean : String → Mesh → Mesh → Except String BoolResult

/-! ## The boolean-operation fallback cascade (source lines 159–257) -/

/-- Tier 1 (lines 167–188): the direct manifold3d attempt.  The
operation dispatch raises `Unknown operation` for an unrecognized
operation string; any exception falls through to the next tier. -/
def manifoldAttempt (env : Env) (op : String) (a b : Mesh) : Except String Mesh :=
  if op = "union" ∨ op = "difference" ∨ op = "intersection" then
    env.manifoldBoolean op a b
  else
    Except.error ("Unknown operation: " ++ op)

/-- Tier 3 (lines 204–213 and 230–239): trimesh's built-in booleans,
raising `Unknown operation` for an unrecognized operation string. -/
def trimeshFallback (env : Env) (op : String) (a b : Mesh) : Except String BoolResult :=
  if op = "union" then env.trimeshBoolean "union" a b
  else if op = "difference" then env.trimeshBoolean "difference" a b
  else if op = "intersection" then env.trimeshBoolean "intersection" a b
  else Except.error ("Unknown operation: " ++ op)

/-- Tiers 2–3 (lines 193–213, duplicated at 218–239): try the Blender
interface when present (`raise Exception("Blender not available")`
otherwise); on any failure fall back to trimesh's built-in booleans. -/
def blenderThenBasic (env : Env) (op : String) (a b : Mesh) : Except String BoolResult :=
  match (if env.blenderExists then env.blenderBoolean op a b
         else Except.error "Blender not available") with
  | Except.ok r => Except.ok r
  | Except.error _ => trimeshFallback env op a b

/-- The full backend cascade: manifold3d when importable (any of its
exceptions falling through to Blender-then-trimesh), otherwise
Blender-then-trimesh directly.  The source duplicates the
Blender/trimesh block in the `ImportError` and generic `except` arms;
both arms are the same code. -/
def tryBackends (env : Env) (op : String) (a b : Mesh) : Except String BoolResult :=
  if env.manifoldAvailable then
    match manifoldAttempt env op a b with
    | Except.ok m => Except.ok (BoolResult.single m)
    | Except.error _ => blenderThenBasic env op a b
  else
    blenderThenBasic env op a b

/-- Result normalization (lines 242–257): `None` raises; a `Scene` with no
geometry raises, otherwise its first geometry (in the container's own key
order) is extracted; a mesh with zero vertices raises. -/
def normalizeBoolResult : BoolResult → Except String Mesh
  | BoolResult.null => Except.error "Boolean operation produced None result"
  | BoolResult.scene [] => Except.error "Boolean operation produced empty scene"
  | BoolResult.scene ((_, m) :: _) =>
      if m.vertices.length = 0 then Except.error "Boolean operation produced empty result"
      else Except.ok m
  | BoolResult.single m =>
      if m.vertices.length = 0 then Except.error "Boolean operation produced empty result"
      else Except.ok m

/-! ## Command handlers

Each handler is the pure function (env, registry, params) ↦ (new registry,
response) read off the corresponding Python method.  Logging is dropped. -/

/-- Lines 121–124: `if "transform" in params: mesh.apply_transform(...)`. -/
def maybeTransform (pars : Params) (m : Mesh) : Mesh :=
  match pars.transform with
  | some M => m.apply_transform M
  | none => m

/-- The success response emitted by the creation commands (lines 128–134,
311–317, 472–478): store the mesh and report id, counts and bounds. -/
def finishCreate (env : Env) (reg : Registry) (mesh_id : String) (m : Mesh) :
    Registry × Response :=
  (reg.insert mesh_id m,
   { success := true, mesh_id := some mesh_id,
     vertices_count := some m.vertices.length,
     faces_count := some m.faces.length,
     bounds := some (env.bounds m) })

/-- `create_primitive` (lines 93–140). -/
def create_primitive (env : Env) (reg : Registry) (pars : Params) : Registry × Response :=
  let mesh_id := pars.mesh_id.getD ("mesh_" ++ toString reg.size)
  let primitive_type := pars.«type».getD "box"
  if primitive_type = "box" then
    finishCreate env reg mesh_id (maybeTransform pars (env.box (pars.extents.getD [1, 1, 1])))
  else if primitive_type = "sphere" then
    finishCreate env reg mesh_id
      (maybeTransform pars (env.sphere (pars.radius.getD 1) (pars.subdivisions.getD 2)))
  else if primitive_type = "cylinder" then
    finishCreate env reg mesh_id
      (maybeTransform pars
        (env.cylinder (pars.radius.getD 1) (pars.height.getD 2) (pars.sections.getD 32)))
  else if primitive_type = "capsule" then
    finishCreate env reg mesh_id
      (maybeTransform pars (env.capsule (pars.radius.getD 1) (pars.height.getD 2)))
  else
    (reg, Response.fail ("Unknown primitive type: " ++ primitive_type))

/-- Lines 160–162: `mesh_a = mesh_a.process(); mesh_b = mesh_b.process()`.
`Trimesh.process` repairs the mesh in place and returns `self`, and the
locals alias the registry entries, so the registry contents change too.
When both operands name the same mesh, both calls hit the same object and
both locals end up doubly processed.  Returns (mesh_a, mesh_b, registry)
after the two calls. -/
def processStage (env : Env) (reg : Registry) (aId bId : String) (ma mb : Mesh) :
    Mesh × Mesh × Registry :=
  if aId = bId then
    let p := env.process (env.process ma)
    (p, p, reg.insert aId p)
  else
    let pa := env.process ma
    let pb := env.process mb
    (pa, pb, (reg.insert aId pa).insert bId pb)

/-- Lines 273–287: the final empty check and the commit of the result into
the registry with the success response. -/
def commitResult (env : Env) (reg1 : Registry) (result_id : String) (m : Mesh) :
    Registry × Response :=
  if m.vertices.length = 0 then
    (reg1, Response.fail "Boolean operation resulted in empty mesh")
  else
    (reg1.insert result_id m,
     { success := true, result_id := some result_id,
       vertices_count := some m.vertices.length,
       faces_count := some m.faces.length,
       bounds := some (env.bounds m) })

/-- Lines 159–287 after the operands have been fetched and processed:
run the cascade and normalize; on an exception (`bool_error`) fall back to
plain concatenation for `union` (lines 262–266) and fail otherwise
(lines 267–271); then the final empty check and commit. -/
def boolFinish (env : Env) (reg1 : Registry) (operation result_id : String)
    (ma mb : Mesh) : Registry × Response :=
  match (tryBackends env operation ma mb).bind normalizeBoolResult with
  | Except.ok m => commitResult env reg1 result_id m
  | Except.error e =>
      if operation = "union" then
        commitResult env reg1 result_id (ma.concat mb)
      else
        (reg1, Response.fail ("Boolean " ++ operation ++ " failed: " ++ e ++
          ". Manifold3d is installed but may have compatibility issues."))

/-- `boolean_operation` (lines 142–293). -/
def boolean_operation (env : Env) (reg : Registry) (pars : Params) : Registry × Response :=
  let operation := pars.operation.getD "union"
  let result_id := pars.result_id.getD ("result_" ++ toString reg.size)
  match pars.mesh_a, pars.mesh_b with
  | some aId, some bId =>
      match reg.lookup aId, reg.lookup bId with
      | some ma, some mb =>
          let staged := processStage env reg aId bId ma mb
          boolFinish env staged.2.2 operation result_id staged.1 staged.2.1
      | _, _ => (reg, Response.fail "One or both meshes not found")
  | _, _ => (reg, Response.fail "One or both meshes not found")

/-- `extrude_mesh` (lines 295–323). -/
def extrude_mesh (env : Env) (reg : Registry) (pars : Params) : Registry × Response :=
  let mesh_id := pars.mesh_id.getD ("extruded_" ++ toString reg.size)
  let polygon_points := pars.polygon.getD [(0, 0), (1, 0), (1, 1), (0, 1)]
  let height := pars.height.getD 1
  match env.extrudePolygon polygon_points height with
  | Except.error e => (reg, Response.fail e)
  | Except.ok m => finishCreate env reg mesh_id m

/-- `bevel_mesh` (lines 325–364): smoothing followed by a uniform
scale-down by `1 - distance` about the origin. -/
def bevel_mesh (env : Env) (reg : Registry) (pars : Params) : Registry × Response :=
  match Registry.lookupOpt reg pars.mesh_id with
  | none => (reg, Response.fail "Mesh not found")
  | some mesh =>
      let bevel_distance := pars.distance.getD (1 / 10)
      let smoothed := env.smoothed mesh
      let scale_factor := 1 - bevel_distance
      let smoothed2 := smoothed.apply_transform (scaleEye scale_factor)
      let result_id := pars.result_id.getD ("beveled_" ++ pyOptStr pars.mesh_id)
      (reg.insert result_id smoothed2,
       { success := true, result_id := some result_id,
         vertices_count := some smoothed2.vertices.length,
         faces_count := some smoothed2.faces.length,
         bounds := some (env.bounds smoothed2) })

/-- `transform_mesh` (lines 366–424): work on a copy of the stored mesh,
then translate, rotate, scale — each only when the key is present. -/
def transform_mesh (env : Env) (reg : Registry) (pars : Params) : Registry × Response :=
  match Registry.lookupOpt reg pars.mesh_id with
  | none => (reg, Response.fail "Mesh not found")
  | some src =>
      let mesh1 :=
        match pars.translate with
        | some t => src.apply_translation t
        | none => src
      let mesh2 :=
        match pars.rotate with
        | some r =>
            match r.axis, r.angle with
            | some ax, some ang => mesh1.apply_transform (env.rotation_matrix ang ax)
            | _, _ => mesh1
        | none => mesh1
      let mesh3 :=
        match pars.scale with
        | some (ScaleParam.uniform s) => mesh2.apply_transform (scaleEye s)
        | some (ScaleParam.triple v) => mesh2.apply_transform (scaleDiag v)
        | none => mesh2
      let result_id := pars.result_id.getD ("transformed_" ++ pyOptStr pars.mesh_id)
      (reg.insert result_id mesh3,
       { success := true, result_id := some result_id,
         vertices_count := some mesh3.vertices.length,
         faces_count := some mesh3.faces.length,
         bounds := some (env.bounds mesh3) })

/-- `create_complex_mesh` (lines 426–484). -/
def create_complex_mesh (env : Env) (reg : Registry) (pars : Params) : Registry × Response :=
  let mesh_id := pars.mesh_id.getD ("complex_" ++ toString reg.size)
  if pars.«type» = some "torus" then
    finishCreate env reg mesh_id
      (env.torus (pars.major_radius.getD 1) (pars.minor_radius.getD (3 / 10))
        (pars.major_sections.getD 32) (pars.minor_sections.getD 16))
  else if pars.«type» = some "icosphere" then
    finishCreate env reg mesh_id
      (env.icosphere (pars.subdivisions.getD 2) (pars.radius.getD 1))
  else
    (reg, Response.fail ("Unknown complex mesh type: " ++ pyOptStr pars.«type»))

/-- `get_mesh_info` (lines 486–515). -/
def get_mesh_info (env : Env) (reg : Registry) (pars : Params) : Registry × Response :=
  match Registry.lookupOpt reg pars.mesh_id with
  | none => (reg, Response.fail "Mesh not found")
  | some mesh =>
      (reg,
       { success := true, mesh_id := pars.mesh_id,
         vertices_count := some mesh.vertices.length,
         faces_count := some mesh.faces.length,
         bounds := some (env.bounds mesh),
         volume := some (env.volume mesh),
         surface_area := some (env.area mesh),
         is_watertight := some (env.is_watertight mesh),
         center_mass := some (env.center_mass mesh) })

/-- `export_mesh` (lines 517–554). -/
def export_mesh (env : Env) (reg : Registry) (pars : Params) : Registry × Response :=
  match Registry.lookupOpt reg pars.mesh_id with
  | none => (reg, Response.fail "Mesh not found")
  | some mesh =>
      let format_type := pars.format.getD "obj"
      match env.exportData format_type mesh with
      | Except.error e => (reg, Response.fail e)
      | Except.ok raw =>
          (reg,
           { success := true, mesh_id := pars.mesh_id, format := some format_type,
             data := some (env.b64 raw),
             vertices := some mesh.vertices,
             faces := some mesh.faces,
             normals := some (env.vertex_normals mesh) })

/-- `save_mesh_file` (lines 556–599).  `if not filename` is Python
falsiness: both an absent and an empty filename take the default. -/
def save_mesh_file (env : Env) (reg : Registry) (pars : Params) : Registry × Response :=
  match Registry.lookupOpt reg pars.mesh_id with
  | none => (reg, Response.fail "Mesh not found")
  | some mesh =>
      let mid := pyOptStr pars.mesh_id
      let format_type := pars.format.getD "glb"
      let output_dir := pars.output_dir.getD "./output"
      let filename :=
        match pars.filename with
        | none => mid ++ "." ++ format_type
        | some f =>
            if f = "" then mid ++ "." ++ format_type
            else if f.endsWith ("." ++ format_type) then f
            else f ++ "." ++ format_type
      let filepath := output_dir ++ "/" ++ filename
      match env.saveFile filepath mesh with
      | Except.error e => (reg, Response.fail e)
      | Except.ok sz =>
          (reg,
           { success := true, mesh_id := pars.mesh_id,
             filepath := some (env.abspath filepath),
             format := some format_type, file_size := some sz })

/-- `list_meshes` (lines 601–623). -/
def list_meshes (env : Env) (reg : Registry) : Registry × Response :=
  (reg,
   { success := true,
     meshes := some (reg.entries.map (fun e =>
       { id := e.1, vertices_count := e.2.vertices.length,
         faces_count := e.2.faces.length, bounds := env.bounds e.2 })),
     total_count := some reg.size })

/-- `delete_mesh` (lines 625–647). -/
def delete_mesh (reg : Registry) (pars : Params) : Registry × Response :=
  match Registry.lookupOpt reg pars.mesh_id with
  | none => (reg, Response.fail "Mesh not found")
  | some _ =>
      (reg.erase (pyOptStr pars.mesh_id),
       { success := true,
         message := some ("Mesh " ++ pyOptStr pars.mesh_id ++ " deleted successfully") })

/-- `process_command` (lines 60–91): the dispatch chain
`if command == "create_primitive": … elif … else unknown`. -/
def process_command (env : Env) (reg : Registry) (data : CommandData) : Registry × Response :=
  let command := data.command
  let pars := data.params
  if command = some "create_primitive" then create_primitive env reg pars
  else if command = some "boolean_operation" then boolean_operation env reg pars
  else if command = some "extrude" then extrude_mesh env reg pars
  else if command = some "bevel" then bevel_mesh env reg pars
  else if command = some "get_mesh_info" then get_mesh_info env reg pars
  else if command = some "export_mesh" then export_mesh env reg pars
  else if command = some "save_mesh_file" then save_mesh_file env reg pars
  else if command = some "list_meshes" then list_meshes env reg
  else if command = some "delete_mesh" then delete_mesh reg pars
  else if command = some "transform_mesh" then transform_mesh env reg pars
  else if command = some "create_complex_mesh" then create_complex_mesh env reg pars
  else (reg, Response.fail ("Unknown command: " ++ pyOptStr command))

/-! ## Specification-side step functions

Named after the spec's phrasing of §4.5/§4.6 ("applies translation, then
rotation, then scale, each only if present"; "smoothing then uniform
scale-down about the origin"), to be compared with the handler code. -/

/-- Spec §4.6: the translation step, applied only when `translate` is
present. -/
def translationStep (pars : Params) (m : Mesh) : Mesh :=
  match pars.translate with
  | some t => m.apply_translation t
  | none => m

/-- Spec §4.6: the axis-angle rotation step, applied only when `rotate`
with both `axis` and `angle` is present. -/
def rotationStep (env : Env) (pars : Params) (m : Mesh) : Mesh :=
  match pars.rotate with
  | some r =>
      match r.axis, r.angle with
      | some ax, some ang => m.apply_transform (env.rotation_matrix ang ax)
      | _, _ => m
  | none => m

/-- Spec §4.6: the scale step (uniform or per-axis), applied only when
`scale` is present. -/
def scaleStep (pars : Params) (m : Mesh) : Mesh :=
  match pars.scale with
  | some (ScaleParam.uniform s) => m.apply_transform (scaleEye s)
  | some (ScaleParam.triple v) => m.apply_transform (scaleDiag v)
  | none => m

/-- Spec §4.5: a uniform scale about the origin, stated directly on the
vertex coordinates. -/
def scaleAboutOrigin (s : ℚ) (m : Mesh) : Mesh :=
  { m with vertices := m.vertices.map (fun v => (s * v.1, s * v.2.1, s * v.2.2)) }

/-- Applying the `np.eye(4)`-built uniform scale matrix is exactly the
coordinatewise scale about the origin. -/
theorem apply_transform_scaleEye (m : Mesh) (s : ℚ) :
    m.apply_transform (scaleEye s) = scaleAboutOrigin s m := by
  simp [Mesh.apply_transform, scaleAboutOrigin, scaleEye, Mat4.applyToPoint]

/-! ## Sample environments and registries for concrete evaluations -/

/-- A concrete environment: every backend raises, every statistic is
trivial, `process` is the identity. -/
def baseEnv : Env where
  box := fun _ => { vertices := [(1, 0, 0)], faces := [] }
  sphere := fun _ _ => { vertices := [(0, 1, 0)], faces := [] }
  cylinder := fun _ _ _ => { vertices := [(0, 0, 1)], faces := [] }
  capsule := fun _ _ => { vertices := [(0, 1, 1)], faces := [] }
  torus := fun _ _ _ _ => { vertices := [(1, 1, 0)], faces := [] }
  icosphere := fun _ _ => { vertices := [(1, 0, 1)], faces := [] }
  smoothed := fun m => m
  rotation_matrix := fun _ _ => scaleEye 1
  bounds := fun _ => ((0, 0, 0), (0, 0, 0))
  volume := fun _ => 0
  area := fun _ => 0
  is_watertight := fun _ => true
  center_mass := fun _ => (0, 0, 0)
  vertex_normals := fun _ => []
  extrudePolygon := fun _ _ => Except.ok { vertices := [(0, 0, 0)], faces := [] }
  exportData := fun _ _ => Except.ok "data"
  b64 := fun s => s
  abspath := fun s => s
  saveFile := fun _ _ => Except.ok 0
  process := fun m => m
  manifoldAvailable := false
  manifoldBoolean := fun _ _ _ => Except.error "manifold failed"
  blenderExists := false
  blenderBoolean := fun _ _ _ => Except.error "blender failed"
  trimeshBoolean := fun _ _ _ => Except.error "trimesh failed"

/-- Like `baseEnv`, but `process` visibly repairs: it duplicates the
vertex list (e.g. what vertex merging or winding repair can do to the
stored arrays).  All backends still fail. -/
def dupEnv : Env :=
  { baseEnv with process := fun m => { m with vertices := m.vertices ++ m.vertices } }

/-- Like `baseEnv`, but Blender is present and returns a two-part scene
whose FIRST part is an empty mesh. -/
def sceneHeadEmptyEnv : Env :=
  { baseEnv with
    blenderExists := true,
    blenderBoolean := fun _ _ _ =>
      Except.ok (BoolResult.scene
        [("g0", { vertices := [], faces := [] }),
         ("g1", { vertices := [(5, 5, 5)], faces := [] })]) }

/-- Like `baseEnv`, but Blender is present and returns a two-part scene
whose first part is non-empty. -/
def scenePartsEnv : Env :=
  { baseEnv with
    blenderExists := true,
    blenderBoolean := fun _ _ _ =>
      Except.ok (BoolResult.scene
        [("g0", { vertices := [(7, 7, 7)], faces := [] }),
         ("g1", { vertices := [(5, 5, 5)], faces := [] })]) }

/-- Like `baseEnv`, but boxes are distinguishable by their extents. -/
def demoEnv : Env :=
  { baseEnv with box := fun ext => { vertices := [(ext.headD 1, 0, 0)], faces := [] } }

/-- A registry holding two one-vertex meshes named `a` and `b`. -/
def regAB : Registry :=
  ⟨[("a", { vertices := [(1, 0, 0)], faces := [] }),
    ("b", { vertices := [(2, 0, 0)], faces := [] })]⟩

/-! ## Frame lemmas: a failure response leaves the registry alone
(except for the `process()` writes of `boolean_operation`) -/

theorem commitResult_fail_frame (env : Env) (reg1 : Registry) (rid : String) (m : Mesh)
    (h : (commitResult env reg1 rid m).2.success = false) :
    (commitResult env reg1 rid m).1 = reg1 := by
  by_cases h0 : m.vertices.length = 0
  · unfold commitResult
    rw [if_pos h0]
  · exfalso
    unfold commitResult at h
    rw [if_neg h0] at h
    simp at h

theorem commitResult_success_shape (env : Env) (reg1 : Registry) (rid : String) (m : Mesh)
    (h : (commitResult env reg1 rid m).2.success = true) :
    m.vertices.length ≠ 0 ∧
      commitResult env reg1 rid m =
        (reg1.insert rid m,
         { success := true, result_id := some rid,
           vertices_count := some m.vertices.length,
           faces_count := some m.faces.length,
           bounds := some (env.bounds m) }) := by
  by_cases h0 : m.vertices.length = 0
  · exfalso
    unfold commitResult at h
    rw [if_pos h0] at h
    simp [Response.fail] at h
  · refine ⟨h0, ?_⟩
    unfold commitResult
    rw [if_neg h0]

theorem boolFinish_eq_ok (env : Env) (reg1 : Registry) (op rid : String) (a b : Mesh)
    (m : Mesh) (hc : (tryBackends env op a b).bind normalizeBoolResult = Except.ok m) :
    boolFinish env reg1 op rid a b = commitResult env reg1 rid m := by
  unfold boolFinish
  simp only [hc]

theorem boolFinish_eq_err_union (env : Env) (reg1 : Registry) (op rid : String) (a b : Mesh)
    (e : String) (hc : (tryBackends env op a b).bind normalizeBoolResult = Except.error e)
    (hop : op = "union") :
    boolFinish env reg1 op rid a b = commitResult env reg1 rid (a.concat b) := by
  subst hop
  unfold boolFinish
  simp only [hc]
  simp

theorem boolFinish_eq_err_other (env : Env) (reg1 : Registry) (op rid : String) (a b : Mesh)
    (e : String) (hc : (tryBackends env op a b).bind normalizeBoolResult = Except.error e)
    (hop : op ≠ "union") :
    boolFinish env reg1 op rid a b =
      (reg1, Response.fail ("Boolean " ++ op ++ " failed: " ++ e ++
        ". Manifold3d is installed but may have compatibility issues.")) := by
  unfold boolFinish
  simp only [hc, if_neg hop]

theorem boolFinish_fail_frame (env : Env) (reg1 : Registry) (op rid : String) (a b : Mesh)
    (h : (boolFinish env reg1 op rid a b).2.success = false) :
    (boolFinish env reg1 op rid a b).1 = reg1 := by
  cases hc : (tryBackends env op a b).bind normalizeBoolResult with
  | ok m =>
      rw [boolFinish_eq_ok env reg1 op rid a b m hc] at h ⊢
      exact commitResult_fail_frame env reg1 rid m h
  | error e =>
      by_cases hop : op = "union"
      · rw [boolFinish_eq_err_union env reg1 op rid a b e hc hop] at h ⊢
        exact commitResult_fail_frame env reg1 rid _ h
      · rw [boolFinish_eq_err_other env reg1 op rid a b e hc hop]

theorem boolFinish_success_shape (env : Env) (reg1 : Registry) (op rid : String) (a b : Mesh)
    (h : (boolFinish env reg1 op rid a b).2.success = true) :
    ∃ m, m.vertices.length ≠ 0 ∧
      boolFinish env reg1 op rid a b =
        (reg1.insert rid m,
         { success := true, result_id := some rid,
           vertices_count := some m.vertices.length,
           faces_count := some m.faces.length,
           bounds := some (env.bounds m) }) := by
  cases hc : (tryBackends env op a b).bind normalizeBoolResult with
  | ok m =>
      rw [boolFinish_eq_ok env reg1 op rid a b m hc] at h ⊢
      exact ⟨m, commitResult_success_shape env reg1 rid m h⟩
  | error e =>
      by_cases hop : op = "union"
      · rw [boolFinish_eq_err_union env reg1 op rid a b e hc hop] at h ⊢
        exact ⟨a.concat b, commitResult_success_shape env reg1 rid _ h⟩
      · exfalso
        rw [boolFinish_eq_err_other env reg1 op rid a b e hc hop] at h
        simp [Response.fail] at h

theorem processStage_keys (env : Env) (reg : Registry) (aId bId : String) (ma mb : Mesh)
    (ha : reg.lookup aId = some ma) (hb : reg.lookup bId = some mb) :
    (processStage env reg aId bId ma mb).2.2.keys = reg.keys := by
  unfold processStage
  by_cases hab : aId = bId
  · simp only [hab, if_pos rfl]
    exact Registry.keys_insert_of_mem reg bId _ _ (hab ▸ ha)
  · simp only [if_neg hab]
    have h1 : (reg.insert aId (env.process ma)).lookup bId = some mb := by
      rw [Registry.lookup_insert_ne reg aId bId _ (fun hh => hab hh.symm)]
      exact hb
    rw [Registry.keys_insert_of_mem _ bId _ _ h1,
        Registry.keys_insert_of_mem reg aId _ _ ha]

theorem processStage_lookup_other (env : Env) (reg : Registry) (aId bId : String)
    (ma mb : Mesh) (k : String) (hk1 : k ≠ aId) (hk2 : k ≠ bId) :
    (processStage env reg aId bId ma mb).2.2.lookup k = reg.lookup k := by
  unfold processStage
  by_cases hab : aId = bId
  · simp only [hab, if_pos rfl]
    exact Registry.lookup_insert_ne reg bId k _ hk2
  · simp only [if_neg hab]
    rw [Registry.lookup_insert_ne _ bId k _ hk2,
        Registry.lookup_insert_ne reg aId k _ hk1]

theorem boolean_operation_eq_notfound (env : Env) (reg : Registry) (pars : Params)
    (h : Registry.lookupOpt reg pars.mesh_a = none ∨ Registry.lookupOpt reg pars.mesh_b = none) :
    boolean_operation env reg pars = (reg, Response.fail "One or both meshes not found") := by
  unfold boolean_operation
  cases hA : pars.mesh_a with
  | none => rfl
  | some aId =>
      cases hB : pars.mesh_b with
      | none => rfl
      | some bId =>
          rw [hA, hB] at h
          simp only [Registry.lookupOpt] at h
          cases hla : reg.lookup aId with
          | none => simp only [hla]
          | some ma =>
              cases hlb : reg.lookup bId with
              | none => simp only [hla, hlb]
              | some mb =>
                  exfalso
                  rw [hla, hlb] at h
                  rcases h with h | h <;> exact Option.noConfusion h

theorem boolean_operation_eq_core (env : Env) (reg : Registry) (pars : Params)
    (aId bId : String) (ma mb : Mesh)
    (hA : pars.mesh_a = some aId) (hB : pars.mesh_b = some bId)
    (hla : reg.lookup aId = some ma) (hlb : reg.lookup bId = some mb) :
    boolean_operation env reg pars =
      boolFinish env (processStage env reg aId bId ma mb).2.2
        (pars.operation.getD "union")
        (pars.result_id.getD ("result_" ++ toString reg.size))
        (processStage env reg aId bId ma mb).1
        (processStage env reg aId bId ma mb).2.1 := by
  unfold boolean_operation
  simp only [hA, hB, hla, hlb]

theorem boolean_operation_fail_frame (env : Env) (reg : Registry) (pars : Params)
    (hfail : (boolean_operation env reg pars).2.success = false) :
    (boolean_operation env reg pars).1.keys = reg.keys ∧
      ∀ k, some k ≠ pars.mesh_a → some k ≠ pars.mesh_b →
        (boolean_operation env reg pars).1.lookup k = reg.lookup k := by
  cases hA : pars.mesh_a with
  | none =>
      rw [boolean_operation_eq_notfound env reg pars (Or.inl (by rw [hA]; rfl))]
      exact ⟨rfl, fun k _ _ => rfl⟩
  | some aId =>
      cases hB : pars.mesh_b with
      | none =>
          rw [boolean_operation_eq_notfound env reg pars (Or.inr (by rw [hB]; rfl))]
          exact ⟨rfl, fun k _ _ => rfl⟩
      | some bId =>
          cases hla : reg.lookup aId with
          | none =>
              rw [boolean_operation_eq_notfound env reg pars
                (Or.inl (by rw [hA]; simpa [Registry.lookupOpt] using hla))]
              exact ⟨rfl, fun k _ _ => rfl⟩
          | some ma =>
              cases hlb : reg.lookup bId with
              | none =>
                  rw [boolean_operation_eq_notfound env reg pars
                    (Or.inr (by rw [hB]; simpa [Registry.lookupOpt] using hlb))]
                  exact ⟨rfl, fun k _ _ => rfl⟩
              | some mb =>
                  rw [boolean_operation_eq_core env reg pars aId bId ma mb hA hB hla hlb]
                    at hfail ⊢
                  have hfin := boolFinish_fail_frame env _ _ _ _ _ hfail
                  constructor
                  · rw [hfin]
                    exact processStage_keys env reg aId bId ma mb hla hlb
                  · intro k hk1 hk2
                    rw [hfin]
                    exact processStage_lookup_other env reg aId bId ma mb k
                      (fun hh => hk1 (by rw [hh])) (fun hh => hk2 (by rw [hh]))

theorem create_primitive_fail_frame (env : Env) (reg : Registry) (pars : Params)
    (h : (create_primitive env reg pars).2.success = false) :
    (create_primitive env reg pars).1 = reg := by
  unfold create_primitive at h ⊢
  dsimp only at h ⊢
  split_ifs at h ⊢ <;> simp_all [finishCreate]

theorem create_complex_mesh_fail_frame (env : Env) (reg : Registry) (pars : Params)
    (h : (create_complex_mesh env reg pars).2.success = false) :
    (create_complex_mesh env reg pars).1 = reg := by
  unfold create_complex_mesh at h ⊢
  dsimp only at h ⊢
  split_ifs at h ⊢ <;> simp_all [finishCreate]

theorem extrude_mesh_fail_frame (env : Env) (reg : Registry) (pars : Params)
    (h : (extrude_mesh env reg pars).2.success = false) :
    (extrude_mesh env reg pars).1 = reg := by
  unfold extrude_mesh at h ⊢
  dsimp only at h ⊢
  cases he : env.extrudePolygon (pars.polygon.getD [(0, 0), (1, 0), (1, 1), (0, 1)])
      (pars.height.getD 1) with
  | error e => simp only [he]
  | ok m =>
      exfalso
      simp only [he] at h
      simp [finishCreate] at h

theorem bevel_mesh_fail_frame (env : Env) (reg : Registry) (pars : Params)
    (h : (bevel_mesh env reg pars).2.success = false) :
    (bevel_mesh env reg pars).1 = reg := by
  unfold bevel_mesh at h ⊢
  cases hl : Registry.lookupOpt reg pars.mesh_id with
  | none => simp only [hl]
  | some mesh =>
      exfalso
      simp only [hl] at h
      simp at h

theorem transform_mesh_fail_frame (env : Env) (reg : Registry) (pars : Params)
    (h : (transform_mesh env reg pars).2.success = false) :
    (transform_mesh env reg pars).1 = reg := by
  unfold transform_mesh at h ⊢
  cases hl : Registry.lookupOpt reg pars.mesh_id with
  | none => simp only [hl]
  | some mesh =>
      exfalso
      simp only [hl] at h
      simp at h

theorem delete_mesh_fail_frame (reg : Registry) (pars : Params)
    (h : (delete_mesh reg pars).2.success = false) :
    (delete_mesh reg pars).1 = reg := by
  unfold delete_mesh at h ⊢
  cases hl : Registry.lookupOpt reg pars.mesh_id with
  | none => simp only [hl]
  | some mesh =>
      exfalso
      simp only [hl] at h
      simp at h

theorem get_mesh_info_reg (env : Env) (reg : Registry) (pars : Params) :
    (get_mesh_info env reg pars).1 = reg := by
  unfold get_mesh_info
  cases Registry.lookupOpt reg pars.mesh_id <;> rfl

theorem export_mesh_reg (env : Env) (reg : Registry) (pars : Params) :
    (export_mesh env reg pars).1 = reg := by
  unfold export_mesh
  cases Registry.lookupOpt reg pars.mesh_id
  · rfl
  · dsimp only
    split <;> rfl

theorem save_mesh_file_reg (env : Env) (reg : Registry) (pars : Params) :
    (save_mesh_file env reg pars).1 = reg := by
  unfold save_mesh_file
  cases Registry.lookupOpt reg pars.mesh_id
  · rfl
  · dsimp only
    split <;> rfl

theorem list_meshes_reg (env : Env) (reg : Registry) :
    (list_meshes env reg).1 = reg := rfl

/-- Every command other than `boolean_operation` leaves the registry
untouched when it answers with a failure response. -/
theorem process_command_fail_frame (env : Env) (reg : Registry) (data : CommandData)
    (hnb : data.command ≠ some "boolean_operation")
    (hfail : (process_command env reg data).2.success = false) :
    (process_command env reg data).1 = reg := by
  by_cases h1 : data.command = some "create_primitive"
  · rw [show process_command env reg data = create_primitive env reg data.params by
      unfold process_command; rw [if_pos h1]] at hfail ⊢
    exact create_primitive_fail_frame env reg data.params hfail
  by_cases h2 : data.command = some "extrude"
  · rw [show process_command env reg data = extrude_mesh env reg data.params by
      unfold process_command; rw [if_neg h1, if_neg hnb, if_pos h2]] at hfail ⊢
    exact extrude_mesh_fail_frame env reg data.params hfail
  by_cases h3 : data.command = some "bevel"
  · rw [show process_command env reg data = bevel_mesh env reg data.params by
      unfold process_command; rw [if_neg h1, if_neg hnb, if_neg h2, if_pos h3]] at hfail ⊢
    exact bevel_mesh_fail_frame env reg data.params hfail
  by_cases h4 : data.command = some "get_mesh_info"
  · rw [show process_command env reg data = get_mesh_info env reg data.params by
      unfold process_command; rw [if_neg h1, if_neg hnb, if_neg h2, if_neg h3, if_pos h4]]
    exact get_mesh_info_reg env reg data.params
  by_cases h5 : data.command = some "export_mesh"
  · rw [show process_command env reg data = export_mesh env reg data.params by
      unfold process_command
      rw [if_neg h1, if_neg hnb, if_neg h2, if_neg h3, if_neg h4, if_pos h5]]
    exact export_mesh_reg env reg data.params
  by_cases h6 : data.command = some "save_mesh_file"
  · rw [show process_command env reg data = save_mesh_file env reg data.params by
      unfold process_command
      rw [if_neg h1, if_neg hnb, if_neg h2, if_neg h3, if_neg h4, if_neg h5, if_pos h6]]
    exact save_mesh_file_reg env reg data.params
  by_cases h7 : data.command = some "list_meshes"
  · rw [show process_command env reg data = list_meshes env reg by
      unfold process_command
      rw [if_neg h1, if_neg hnb, if_neg h2, if_neg h3, if_neg h4, if_neg h5, if_neg h6,
        if_pos h7]]
    exact list_meshes_reg env reg
  by_cases h8 : data.command = some "delete_mesh"
  · rw [show process_command env reg data = delete_mesh reg data.params by
      unfold process_command
      rw [if_neg h1, if_neg hnb, if_neg h2, if_neg h3, if_neg h4, if_neg h5, if_neg h6,
        if_neg h7, if_pos h8]] at hfail ⊢
    exact delete_mesh_fail_frame reg data.params hfail
  by_cases h9 : data.command = some "transform_mesh"
  · rw [show process_command env reg data = transform_mesh env reg data.params by
      unfold process_command
      rw [if_neg h1, if_neg hnb, if_neg h2, if_neg h3, if_neg h4, if_neg h5, if_neg h6,
        if_neg h7, if_neg h8, if_pos h9]] at hfail ⊢
    exact transform_mesh_fail_frame env reg data.params hfail
  by_cases h10 : data.command = some "create_complex_mesh"
  · rw [show process_command env reg data = create_complex_mesh env reg data.params by
      unfold process_command
      rw [if_neg h1, if_neg hnb, if_neg h2, if_neg h3, if_neg h4, if_neg h5, if_neg h6,
        if_neg h7, if_neg h8, if_neg h9, if_pos h10]] at hfail ⊢
    exact create_complex_mesh_fail_frame env reg data.params hfail
  · rw [show process_command env reg data =
        (reg, Response.fail ("Unknown command: " ++ pyOptStr data.command)) by
      unfold process_command
      rw [if_neg h1, if_neg hnb, if_neg h2, if_neg h3, if_neg h4, if_neg h5, if_neg h6,
        if_neg h7, if_neg h8, if_neg h9, if_neg h10]]

/-! ## The claims -/

/-- C1: for every command whose configuration references a mesh name
(boolean_operation operands, bevel, transform_mesh, get_mesh_info,
export_mesh, save_mesh_file, delete_mesh), if that name is not a key of
the registry the command returns the "not found" failure response and the
registry is returned exactly unchanged. -/
theorem claim1_missing_mesh_not_found (env : Env) (reg : Registry) (pars : Params) :
    ((Registry.lookupOpt reg pars.mesh_a = none ∨ Registry.lookupOpt reg pars.mesh_b = none) →
       boolean_operation env reg pars = (reg, Response.fail "One or both meshes not found"))
    ∧ (Registry.lookupOpt reg pars.mesh_id = none →
       bevel_mesh env reg pars = (reg, Response.fail "Mesh not found"))
    ∧ (Registry.lookupOpt reg pars.mesh_id = none →
       transform_mesh env reg pars = (reg, Response.fail "Mesh not found"))
    ∧ (Registry.lookupOpt reg pars.mesh_id = none →
       get_mesh_info env reg pars = (reg, Response.fail "Mesh not found"))
    ∧ (Registry.lookupOpt reg pars.mesh_id = none →
       export_mesh env reg pars = (reg, Response.fail "Mesh not found"))
    ∧ (Registry.lookupOpt reg pars.mesh_id = none →
       save_mesh_file env reg pars = (reg, Response.fail "Mesh not found"))
    ∧ (Registry.lookupOpt reg pars.mesh_id = none →
       delete_mesh reg pars = (reg, Response.fail "Mesh not found")) := by
  refine ⟨boolean_operation_eq_notfound env reg pars, ?_, ?_, ?_, ?_, ?_, ?_⟩ <;>
    intro h
  · unfold bevel_mesh
    rw [h]
  · unfold transform_mesh
    rw [h]
  · unfold get_mesh_info
    rw [h]
  · unfold export_mesh
    rw [h]
  · unfold save_mesh_file
    rw [h]
  · unfold delete_mesh
    rw [h]

/-- Parameters that reference only absent mesh names. -/
def parsMissing : Params := { mesh_id := some "m", mesh_a := some "a", mesh_b := some "b" }

/-- C1 witness: on the empty registry every mesh-referencing command
fails with "not found" and returns the registry unchanged. -/
theorem claim1_missing_mesh_not_found_witness :
    boolean_operation baseEnv ⟨[]⟩ parsMissing =
      (⟨[]⟩, Response.fail "One or both meshes not found")
    ∧ bevel_mesh baseEnv ⟨[]⟩ parsMissing = (⟨[]⟩, Response.fail "Mesh not found")
    ∧ transform_mesh baseEnv ⟨[]⟩ parsMissing = (⟨[]⟩, Response.fail "Mesh not found")
    ∧ get_mesh_info baseEnv ⟨[]⟩ parsMissing = (⟨[]⟩, Response.fail "Mesh not found")
    ∧ export_mesh baseEnv ⟨[]⟩ parsMissing = (⟨[]⟩, Response.fail "Mesh not found")
    ∧ save_mesh_file baseEnv ⟨[]⟩ parsMissing = (⟨[]⟩, Response.fail "Mesh not found")
    ∧ delete_mesh ⟨[]⟩ parsMissing = (⟨[]⟩, Response.fail "Mesh not found") := by
  have h := claim1_missing_mesh_not_found baseEnv ⟨[]⟩ parsMissing
  exact ⟨h.1 (Or.inl rfl), h.2.1 rfl, h.2.2.1 rfl, h.2.2.2.1 rfl, h.2.2.2.2.1 rfl,
    h.2.2.2.2.2.1 rfl, h.2.2.2.2.2.2 rfl⟩

/-- A `difference` request between the two stored meshes. -/
def parsDiff : Params :=
  { mesh_a := some "a", mesh_b := some "b", operation := some "difference",
    result_id := some "r" }

/-- C2 counterexample: with every backend failing and a repairing
`process` (here: one that duplicates the vertex array, as vertex merging
or winding repair does), a failing `difference` returns a registry whose
operand entries are NOT the meshes that were stored: `process()` mutated
them in place before the cascade ran. -/
theorem claim2_failure_atomicity_counterexample :
    (boolean_operation dupEnv regAB parsDiff).2.success = false
    ∧ (boolean_operation dupEnv regAB parsDiff).1 ≠ regAB
    ∧ (boolean_operation dupEnv regAB parsDiff).1.lookup "a" =
        some { vertices := [(1, 0, 0), (1, 0, 0)], faces := [] } := by
  refine ⟨rfl, by decide, by decide⟩

/-- C2 amended: a command that answers with a failure response adds and
removes no registry entry (key list unchanged) and leaves every entry not
named as a `boolean_operation` operand exactly as it was; every command
other than `boolean_operation` leaves the whole registry exactly as it
was.  (A failing `boolean_operation` may still replace its two operand
entries by their `process()`-repaired versions, because `Trimesh.process`
mutates the stored handles in place.) -/
theorem claim2_failure_atomicity_amended (env : Env) (reg : Registry) (data : CommandData)
    (hfail : (process_command env reg data).2.success = false) :
    ((process_command env reg data).1.keys = reg.keys)
    ∧ (∀ k, some k ≠ data.params.mesh_a → some k ≠ data.params.mesh_b →
        (process_command env reg data).1.lookup k = reg.lookup k)
    ∧ (data.command ≠ some "boolean_operation" → (process_command env reg data).1 = reg) := by
  by_cases hb : data.command = some "boolean_operation"
  · have h1 : data.command ≠ some "create_primitive" := by rw [hb]; simp
    have heq : process_command env reg data = boolean_operation env reg data.params := by
      unfold process_command
      rw [if_neg h1, if_pos hb]
    rw [heq] at hfail ⊢
    obtain ⟨hk, hl⟩ := boolean_operation_fail_frame env reg data.params hfail
    exact ⟨hk, hl, fun hnb => absurd hb hnb⟩
  · have hframe := process_command_fail_frame env reg data hb hfail
    rw [hframe]
    exact ⟨rfl, fun k _ _ => rfl, fun _ => rfl⟩

/-- C2 amended witness: an unknown command fails and preserves the key
list. -/
theorem claim2_failure_atomicity_amended_witness :
    (process_command baseEnv regAB { command := some "nope" }).1.keys = regAB.keys :=
  (claim2_failure_atomicity_amended baseEnv regAB { command := some "nope" } (by decide)).1

/-- C7: an unrecognized (or absent) command name yields a failure
response naming the unrecognized command, and the registry is returned
unchanged. -/
theorem claim7_unknown_command (env : Env) (reg : Registry) (data : CommandData)
    (h : ∀ s, data.command = some s →
      s ∉ (["create_primitive", "boolean_operation", "extrude", "bevel", "get_mesh_info",
            "export_mesh", "save_mesh_file", "list_meshes", "delete_mesh", "transform_mesh",
            "create_complex_mesh"] : List String)) :
    process_command env reg data =
      (reg, Response.fail ("Unknown command: " ++ pyOptStr data.command)) := by
  cases hc : data.command with
  | none => simp [process_command, hc, pyOptStr]
  | some c =>
      replace h := h c hc
      simp only [List.mem_cons, List.not_mem_nil, or_false, not_or] at h
      obtain ⟨n1, n2, n3, n4, n5, n6, n7, n8, n9, n10, n11⟩ := h
      simp [process_command, hc, pyOptStr, n1, n2, n3, n4, n5, n6, n7, n8, n9, n10, n11]

/-- C7 witness: the command name `nope` (and an absent command name)
produce the unknown-command failure on an untouched registry. -/
theorem claim7_unknown_command_witness :
    process_command baseEnv regAB { command := some "nope" } =
      (regAB, Response.fail "Unknown command: nope")
    ∧ process_command baseEnv regAB { command := none } =
      (regAB, Response.fail "Unknown command: None") := by
  constructor
  · rw [claim7_unknown_command baseEnv regAB { command := some "nope" } (by decide)]
    decide
  · rw [claim7_unknown_command baseEnv regAB { command := none } (by decide)]
    decide

/-- C8: a creation command given an unsupported shape kind fails naming
the unknown kind and returns the registry unchanged. -/
theorem claim8_unknown_shape_kind (env : Env) (reg : Registry) (pars : Params) :
    (pars.«type».getD "box" ∉ (["box", "sphere", "cylinder", "capsule"] : List String) →
       create_primitive env reg pars =
         (reg, Response.fail ("Unknown primitive type: " ++ pars.«type».getD "box")))
    ∧ ((pars.«type» ≠ some "torus" ∧ pars.«type» ≠ some "icosphere") →
       create_complex_mesh env reg pars =
         (reg, Response.fail ("Unknown complex mesh type: " ++ pyOptStr pars.«type»))) := by
  constructor
  · intro h
    simp only [List.mem_cons, List.not_mem_nil, or_false, not_or] at h
    obtain ⟨n1, n2, n3, n4⟩ := h
    unfold create_primitive
    dsimp only
    rw [if_neg n1, if_neg n2, if_neg n3, if_neg n4]
  · intro h
    unfold create_complex_mesh
    dsimp only
    rw [if_neg h.1, if_neg h.2]

/-- C8 witness: the shape kind `pyramid` is rejected by both creation
commands with the registry unchanged. -/
theorem claim8_unknown_shape_kind_witness :
    create_primitive baseEnv ⟨[]⟩ { «type» := some "pyramid" } =
      (⟨[]⟩, Response.fail "Unknown primitive type: pyramid")
    ∧ create_complex_mesh baseEnv ⟨[]⟩ { «type» := some "pyramid" } =
      (⟨[]⟩, Response.fail "Unknown complex mesh type: pyramid") := by
  have h := claim8_unknown_shape_kind baseEnv ⟨[]⟩ { «type» := some "pyramid" }
  constructor
  · rw [h.1 (by decide)]
    decide
  · rw [h.2 ⟨by decide, by decide⟩]
    decide

/-- C3: when every backend tier fails, `union` falls back to naive
concatenation of the two (processed) meshes and succeeds when that
concatenation is non-empty, while `difference` and `intersection` return
a failure response and insert nothing (the final registry is only the
operand-processed one, with no new entry). -/
theorem claim3_union_concat_fallback (env : Env) (reg : Registry) (pars : Params)
    (aId bId rid : String) (ma mb : Mesh) (eFn : String → Mesh → Mesh → String)
    (hA : pars.mesh_a = some aId) (hB : pars.mesh_b = some bId) (hne : aId ≠ bId)
    (hla : reg.lookup aId = some ma) (hlb : reg.lookup bId = some mb)
    (hrid : pars.result_id = some rid)
    (hman : env.manifoldAvailable = false)
    (hbl : env.blenderExists = false)
    (htm : ∀ op a b, env.trimeshBoolean op a b = Except.error (eFn op a b)) :
    (pars.operation = some "union" →
       0 < ((env.process ma).concat (env.process mb)).vertices.length →
       boolean_operation env reg pars =
         (((reg.insert aId (env.process ma)).insert bId (env.process mb)).insert rid
            ((env.process ma).concat (env.process mb)),
          { success := true, result_id := some rid,
            vertices_count := some ((env.process ma).concat (env.process mb)).vertices.length,
            faces_count := some ((env.process ma).concat (env.process mb)).faces.length,
            bounds := some (env.bounds ((env.process ma).concat (env.process mb))) }))
    ∧ (∀ op, (op = "difference" ∨ op = "intersection") → pars.operation = some op →
         boolean_operation env reg pars =
           ((reg.insert aId (env.process ma)).insert bId (env.process mb),
            Response.fail ("Boolean " ++ op ++ " failed: " ++
              eFn op (env.process ma) (env.process mb) ++
              ". Manifold3d is installed but may have compatibility issues."))) := by
  have hcascade : ∀ op a b, (tryBackends env op a b).bind normalizeBoolResult =
      Except.error (if op = "union" ∨ op = "difference" ∨ op = "intersection"
                    then eFn op a b else "Unknown operation: " ++ op) := by
    intro op a b
    unfold tryBackends blenderThenBasic trimeshFallback
    rw [hman, hbl]
    by_cases h1 : op = "union"
    · simp [h1, htm, Except.bind]
    · by_cases h2 : op = "difference"
      · simp [h1, h2, htm, Except.bind]
      · by_cases h3 : op = "intersection"
        · simp [h1, h2, h3, htm, Except.bind]
        · simp [h1, h2, h3, Except.bind]
  have hps : processStage env reg aId bId ma mb =
      (env.process ma, env.process mb,
       (reg.insert aId (env.process ma)).insert bId (env.process mb)) := by
    unfold processStage
    rw [if_neg hne]
  constructor
  · intro hop hpos
    rw [boolean_operation_eq_core env reg pars aId bId ma mb hA hB hla hlb, hps]
    dsimp only
    rw [hop, hrid]
    simp only [Option.getD_some]
    rw [boolFinish_eq_err_union env _ "union" rid _ _ _ (hcascade "union" _ _) rfl]
    unfold commitResult
    rw [if_neg (Nat.pos_iff_ne_zero.mp hpos)]
  · intro op hop12 hopeq
    rw [boolean_operation_eq_core env reg pars aId bId ma mb hA hB hla hlb, hps]
    dsimp only
    rw [hopeq, hrid]
    simp only [Option.getD_some]
    rcases hop12 with rfl | rfl
    · rw [boolFinish_eq_err_other env _ "difference" rid _ _ _
        (hcascade "difference" _ _) (by decide)]
      simp
    · rw [boolFinish_eq_err_other env _ "intersection" rid _ _ _
        (hcascade "intersection" _ _) (by decide)]
      simp

/-- A `union` request between the two stored meshes. -/
def parsUnion : Params :=
  { mesh_a := some "a", mesh_b := some "b", operation := some "union",
    result_id := some "r" }

/-- C3 witness: with all backends failing, `union` succeeds by
concatenation while `difference` fails. -/
theorem claim3_union_concat_fallback_witness :
    (boolean_operation dupEnv regAB parsUnion).2.success = true
    ∧ (boolean_operation dupEnv regAB parsDiff).2.success = false := by
  have hu := (claim3_union_concat_fallback dupEnv regAB parsUnion "a" "b" "r"
    { vertices := [(1, 0, 0)], faces := [] } { vertices := [(2, 0, 0)], faces := [] }
    (fun _ _ _ => "trimesh failed") rfl rfl (by decide) (by decide) (by decide) rfl rfl rfl
    (fun _ _ _ => rfl)).1 rfl (by decide)
  have hd := (claim3_union_concat_fallback dupEnv regAB parsDiff "a" "b" "r"
    { vertices := [(1, 0, 0)], faces := [] } { vertices := [(2, 0, 0)], faces := [] }
    (fun _ _ _ => "trimesh failed") rfl rfl (by decide) (by decide) (by decide) rfl rfl rfl
    (fun _ _ _ => rfl)).2 "difference" (Or.inl rfl) rfl
  rw [hu, hd]
  exact ⟨rfl, rfl⟩

/-- C4: a `boolean_operation` success always carries a non-empty stored
result (the inserted mesh has at least one vertex, and the reported
vertex count matches it), and a failure inserts nothing — the key list of
the registry is unchanged. -/
theorem claim4_empty_result_never_success (env : Env) (reg : Registry) (pars : Params) :
    ((boolean_operation env reg pars).2.success = true →
       ∃ m, 0 < m.vertices.length ∧
         (boolean_operation env reg pars).1.lookup
             (pars.result_id.getD ("result_" ++ toString reg.size)) = some m ∧
         (boolean_operation env reg pars).2.vertices_count = some m.vertices.length)
    ∧ ((boolean_operation env reg pars).2.success = false →
       (boolean_operation env reg pars).1.keys = reg.keys) := by
  constructor
  · intro hsucc
    cases hA : pars.mesh_a with
    | none =>
        exfalso
        rw [boolean_operation_eq_notfound env reg pars (Or.inl (by rw [hA]; rfl))] at hsucc
        simp [Response.fail] at hsucc
    | some aId =>
        cases hB : pars.mesh_b with
        | none =>
            exfalso
            rw [boolean_operation_eq_notfound env reg pars (Or.inr (by rw [hB]; rfl))] at hsucc
            simp [Response.fail] at hsucc
        | some bId =>
            cases hla : reg.lookup aId with
            | none =>
                exfalso
                rw [boolean_operation_eq_notfound env reg pars
                  (Or.inl (by rw [hA]; simpa [Registry.lookupOpt] using hla))] at hsucc
                simp [Response.fail] at hsucc
            | some ma =>
                cases hlb : reg.lookup bId with
                | none =>
                    exfalso
                    rw [boolean_operation_eq_notfound env reg pars
                      (Or.inr (by rw [hB]; simpa [Registry.lookupOpt] using hlb))] at hsucc
                    simp [Response.fail] at hsucc
                | some mb =>
                    rw [boolean_operation_eq_core env reg pars aId bId ma mb hA hB hla hlb]
                      at hsucc ⊢
                    obtain ⟨m, hm0, hfin⟩ := boolFinish_success_shape env _ _ _ _ _ hsucc
                    refine ⟨m, Nat.pos_of_ne_zero hm0, ?_, ?_⟩
                    · rw [hfin]
                      exact Registry.lookup_insert_self _ _ _
                    · rw [hfin]
  · intro hfail
    exact (boolean_operation_fail_frame env reg pars hfail).1

/-- C4 witness: a successful union stores a non-empty mesh with a
matching reported count; a failed difference leaves the key list
unchanged. -/
theorem claim4_empty_result_never_success_witness :
    (∃ m, 0 < m.vertices.length ∧
       (boolean_operation dupEnv regAB parsUnion).1.lookup
           (parsUnion.result_id.getD ("result_" ++ toString regAB.size)) = some m ∧
       (boolean_operation dupEnv regAB parsUnion).2.vertices_count = some m.vertices.length)
    ∧ (boolean_operation dupEnv regAB parsDiff).1.keys = regAB.keys :=
  ⟨(claim4_empty_result_never_success dupEnv regAB parsUnion).1 (by decide),
   (claim4_empty_result_never_success dupEnv regAB parsDiff).2 (by decide)⟩

/-- C5 counterexample: the backend (here Blender) returns a TWO-part
scene whose first part is an empty mesh, for a `union` request.  The
extraction of the first part raises the empty-result exception, the
union concatenation fallback takes over, and the mesh inserted under the
result name is the concatenation of the operands — not the container's
first part, although the chosen backend did return a multi-part
container. -/
theorem claim5_first_part_counterexample :
    tryBackends sceneHeadEmptyEnv "union"
        { vertices := [(1, 0, 0)], faces := [] } { vertices := [(2, 0, 0)], faces := [] } =
      Except.ok (BoolResult.scene
        [("g0", { vertices := [], faces := [] }),
         ("g1", { vertices := [(5, 5, 5)], faces := [] })])
    ∧ (boolean_operation sceneHeadEmptyEnv regAB parsUnion).2.success = true
    ∧ (boolean_operation sceneHeadEmptyEnv regAB parsUnion).1.lookup "r" ≠
        some { vertices := [], faces := [] }
    ∧ (boolean_operation sceneHeadEmptyEnv regAB parsUnion).1.lookup "r" =
        some (Mesh.concat { vertices := [(1, 0, 0)], faces := [] }
          { vertices := [(2, 0, 0)], faces := [] }) :=
  ⟨rfl, by decide, by decide, by decide⟩

/-- C5 amended: when the chosen backend returns a multi-part container
whose first part (in the container's own key ordering) is non-empty, the
mesh kept and inserted under the result name is exactly that first part
and all other parts are discarded; an empty first part instead counts as
a failed backend result (for `union` the concatenation fallback then
applies, otherwise the command fails). -/
theorem claim5_scene_takes_first_part (env : Env) (reg : Registry) (pars : Params)
    (aId bId rid g : String) (ma mb m0 : Mesh) (rest : List (String × Mesh))
    (hA : pars.mesh_a = some aId) (hB : pars.mesh_b = some bId) (hne : aId ≠ bId)
    (hla : reg.lookup aId = some ma) (hlb : reg.lookup bId = some mb)
    (hrid : pars.result_id = some rid)
    (hscene : tryBackends env (pars.operation.getD "union")
        (env.process ma) (env.process mb) =
      Except.ok (BoolResult.scene ((g, m0) :: rest)))
    (hm0 : m0.vertices.length ≠ 0) :
    boolean_operation env reg pars =
      (((reg.insert aId (env.process ma)).insert bId (env.process mb)).insert rid m0,
       { success := true, result_id := some rid,
         vertices_count := some m0.vertices.length,
         faces_count := some m0.faces.length,
         bounds := some (env.bounds m0) }) := by
  have hps : processStage env reg aId bId ma mb =
      (env.process ma, env.process mb,
       (reg.insert aId (env.process ma)).insert bId (env.process mb)) := by
    unfold processStage
    rw [if_neg hne]
  have hbind : (tryBackends env (pars.operation.getD "union")
      (env.process ma) (env.process mb)).bind normalizeBoolResult = Except.ok m0 := by
    rw [hscene]
    simp [Except.bind, normalizeBoolResult, hm0]
  rw [boolean_operation_eq_core env reg pars aId bId ma mb hA hB hla hlb, hps]
  dsimp only
  rw [hrid]
  simp only [Option.getD_some]
  rw [boolFinish_eq_ok env _ _ rid _ _ m0 (by rw [← hbind])]
  unfold commitResult
  rw [if_neg hm0]

/-- C5 amended witness: a two-part scene with a non-empty first part
stores exactly that first part. -/
theorem claim5_scene_takes_first_part_witness :
    (boolean_operation scenePartsEnv regAB parsUnion).1.lookup "r" =
      some { vertices := [(7, 7, 7)], faces := [] } := by
  have h := claim5_scene_takes_first_part scenePartsEnv regAB parsUnion "a" "b" "r" "g0"
    { vertices := [(1, 0, 0)], faces := [] } { vertices := [(2, 0, 0)], faces := [] }
    { vertices := [(7, 7, 7)], faces := [] } [("g1", { vertices := [(5, 5, 5)], faces := [] })]
    rfl rfl (by decide) (by decide) (by decide) rfl rfl (by decide)
  rw [h]
  decide

/-- C6: `transform_mesh` on an existing mesh computes exactly
scale ∘ rotate ∘ translate of the stored source (each step only when its
key is present), stores the result under the caller-supplied or
`transformed_{id}` name, leaves every other entry — in particular the
source — unchanged, and the step order is observable (translate-then-
scale differs from scale-then-translate). -/
theorem claim6_transform_fixed_order (env : Env) (reg : Registry) (pars : Params)
    (mid : String) (src : Mesh)
    (hmid : pars.mesh_id = some mid) (hsrc : reg.lookup mid = some src) :
    (transform_mesh env reg pars =
       (reg.insert (pars.result_id.getD ("transformed_" ++ mid))
          (scaleStep pars (rotationStep env pars (translationStep pars src))),
        { success := true,
          result_id := some (pars.result_id.getD ("transformed_" ++ mid)),
          vertices_count :=
            some (scaleStep pars (rotationStep env pars (translationStep pars src))).vertices.length,
          faces_count :=
            some (scaleStep pars (rotationStep env pars (translationStep pars src))).faces.length,
          bounds :=
            some (env.bounds (scaleStep pars (rotationStep env pars (translationStep pars src)))) }))
    ∧ (∀ k, k ≠ pars.result_id.getD ("transformed_" ++ mid) →
         (transform_mesh env reg pars).1.lookup k = reg.lookup k)
    ∧ (pars.result_id.getD ("transformed_" ++ mid) ≠ mid →
         (transform_mesh env reg pars).1.lookup mid = some src)
    ∧ scaleStep { scale := some (ScaleParam.uniform 2) }
         (translationStep { translate := some (1, 0, 0) } { vertices := [(1, 1, 1)], faces := [] }) ≠
       translationStep { translate := some (1, 0, 0) }
         (scaleStep { scale := some (ScaleParam.uniform 2) } { vertices := [(1, 1, 1)], faces := [] }) := by
  have hmain : transform_mesh env reg pars =
      (reg.insert (pars.result_id.getD ("transformed_" ++ mid))
         (scaleStep pars (rotationStep env pars (translationStep pars src))),
       { success := true,
         result_id := some (pars.result_id.getD ("transformed_" ++ mid)),
         vertices_count :=
           some (scaleStep pars (rotationStep env pars (translationStep pars src))).vertices.length,
         faces_count :=
           some (scaleStep pars (rotationStep env pars (translationStep pars src))).faces.length,
         bounds :=
           some (env.bounds (scaleStep pars (rotationStep env pars (translationStep pars src)))) }) := by
    unfold transform_mesh
    rw [hmid, show Registry.lookupOpt reg (some mid) = some src from hsrc]
    rfl
  have horder : scaleStep { scale := some (ScaleParam.uniform 2) }
      (translationStep { translate := some (1, 0, 0) } { vertices := [(1, 1, 1)], faces := [] }) =
      { vertices := [(4, 2, 2)], faces := [] } := by
    norm_num [scaleStep, translationStep, Mesh.apply_translation, Mesh.apply_transform,
      scaleEye, Mat4.applyToPoint, vadd]
  have horder2 : translationStep { translate := some (1, 0, 0) }
      (scaleStep { scale := some (ScaleParam.uniform 2) } { vertices := [(1, 1, 1)], faces := [] }) =
      { vertices := [(3, 2, 2)], faces := [] } := by
    norm_num [scaleStep, translationStep, Mesh.apply_translation, Mesh.apply_transform,
      scaleEye, Mat4.applyToPoint, vadd]
  refine ⟨hmain, ?_, ?_, ?_⟩
  · intro k hk
    rw [hmain]
    exact Registry.lookup_insert_ne reg _ k _ hk
  · intro hne
    rw [hmain]
    dsimp only
    rw [Registry.lookup_insert_ne reg _ mid _ (fun hh => hne hh.symm)]
    exact hsrc
  · rw [horder, horder2]
    norm_num [Mesh.mk.injEq]

/-- A transform request: translate by (1,0,0), then uniform scale by 2. -/
def parsTransl : Params :=
  { mesh_id := some "a", translate := some (1, 0, 0),
    scale := some (ScaleParam.uniform 2), result_id := some "t" }

/-- C6 witness: the stored result of translate-then-scale on the
one-vertex mesh (1,0,0) is (4,0,0), and the source entry is intact. -/
theorem claim6_transform_fixed_order_witness :
    (transform_mesh baseEnv regAB parsTransl).1.lookup "t" =
      some { vertices := [(4, 0, 0)], faces := [] }
    ∧ (transform_mesh baseEnv regAB parsTransl).1.lookup "a" =
      some { vertices := [(1, 0, 0)], faces := [] } := by
  have h := claim6_transform_fixed_order baseEnv regAB parsTransl "a"
    { vertices := [(1, 0, 0)], faces := [] } rfl (by decide)
  have hm : scaleStep parsTransl (rotationStep baseEnv parsTransl
      (translationStep parsTransl { vertices := [(1, 0, 0)], faces := [] })) =
      { vertices := [(4, 0, 0)], faces := [] } := by
    norm_num [scaleStep, rotationStep, translationStep, parsTransl, Mesh.apply_translation,
      Mesh.apply_transform, scaleEye, Mat4.applyToPoint, vadd]
  constructor
  · rw [h.1, hm]
    exact Registry.lookup_insert_self _ _ _
  · exact h.2.2.1 (by decide)

/-- C9: `bevel` on an existing mesh stores, under the caller-supplied or
`beveled_{id}` name, exactly the surface-smoothed source scaled uniformly
about the origin by the factor 1 − distance (distance defaulting to
1/10). -/
theorem claim9_bevel_smooth_then_shrink (env : Env) (reg : Registry) (pars : Params)
    (mid : String) (src : Mesh)
    (hmid : pars.mesh_id = some mid) (hsrc : reg.lookup mid = some src) :
    bevel_mesh env reg pars =
      (reg.insert (pars.result_id.getD ("beveled_" ++ mid))
         (scaleAboutOrigin (1 - pars.distance.getD (1 / 10)) (env.smoothed src)),
       { success := true,
         result_id := some (pars.result_id.getD ("beveled_" ++ mid)),
         vertices_count :=
           some (scaleAboutOrigin (1 - pars.distance.getD (1 / 10)) (env.smoothed src)).vertices.length,
         faces_count :=
           some (scaleAboutOrigin (1 - pars.distance.getD (1 / 10)) (env.smoothed src)).faces.length,
         bounds :=
           some (env.bounds (scaleAboutOrigin (1 - pars.distance.getD (1 / 10)) (env.smoothed src))) }) := by
  unfold bevel_mesh
  rw [hmid, show Registry.lookupOpt reg (some mid) = some src from hsrc]
  dsimp only
  rw [apply_transform_scaleEye]
  rfl

/-- A bevel request with distance 1/2 on mesh `a`. -/
def parsBevel : Params :=
  { mesh_id := some "a", distance := some (1 / 2), result_id := some "bv" }

/-- C9 witness: beveling the one-vertex mesh (1,0,0) with distance 1/2
stores the vertex scaled to (1/2,0,0) under the requested name. -/
theorem claim9_bevel_smooth_then_shrink_witness :
    (bevel_mesh baseEnv regAB parsBevel).1.lookup "bv" =
      some { vertices := [(1 / 2, 0, 0)], faces := [] } := by
  have h := claim9_bevel_smooth_then_shrink baseEnv regAB parsBevel "a"
    { vertices := [(1, 0, 0)], faces := [] } rfl (by decide)
  have hm : scaleAboutOrigin (1 - parsBevel.distance.getD (1 / 10))
      (baseEnv.smoothed { vertices := [(1, 0, 0)], faces := [] }) =
      { vertices := [(1 / 2, 0, 0)], faces := [] } := by
    norm_num [scaleAboutOrigin, parsBevel, baseEnv]
  rw [h, hm]
  exact Registry.lookup_insert_self _ _ _

/-! ## The deletion/auto-name collision scenario for C10 -/

/-- Step 1: `create_primitive` with default parameters on the empty
registry — stored under the auto-generated name `mesh_0`. -/
def regStep1 : Registry := (create_primitive demoEnv ⟨[]⟩ {}).1

/-- Step 2: a second default creation — stored under `mesh_1`. -/
def regStep2 : Registry := (create_primitive demoEnv regStep1 {}).1

/-- Step 3: delete `mesh_0`; only `mesh_1` remains and the registry size
drops back to 1. -/
def regStep3 : Registry := (delete_mesh regStep2 { mesh_id := some "mesh_0" }).1

/-- C10: storing under an existing name silently replaces that entry with
success reported and every other entry untouched; and since auto-generated
names derive from the current registry size, a default-named creation
after a deletion collides with and overwrites the surviving `mesh_1`
entry. -/
theorem claim10_silent_replacement (env : Env) (reg : Registry) (pars : Params)
    (mid : String) (old : Mesh)
    (hmid : pars.mesh_id = some mid) (_hold : reg.lookup mid = some old)
    (htype : pars.«type» = some "box") (htr : pars.transform = none) :
    (create_primitive env reg pars =
       (reg.insert mid (env.box (pars.extents.getD [1, 1, 1])),
        { success := true, mesh_id := some mid,
          vertices_count := some (env.box (pars.extents.getD [1, 1, 1])).vertices.length,
          faces_count := some (env.box (pars.extents.getD [1, 1, 1])).faces.length,
          bounds := some (env.bounds (env.box (pars.extents.getD [1, 1, 1]))) })
     ∧ (create_primitive env reg pars).1.lookup mid =
         some (env.box (pars.extents.getD [1, 1, 1]))
     ∧ ∀ k, k ≠ mid → (create_primitive env reg pars).1.lookup k = reg.lookup k)
    ∧ (regStep3.lookup "mesh_1" = some { vertices := [(1, 0, 0)], faces := [] }
       ∧ regStep3.size = 1
       ∧ (create_primitive demoEnv regStep3 { extents := some [2, 2, 2] }).2.success = true
       ∧ (create_primitive demoEnv regStep3 { extents := some [2, 2, 2] }).1 =
           ⟨[("mesh_1", { vertices := [(2, 0, 0)], faces := [] })]⟩) := by
  have hmain : create_primitive env reg pars =
      (reg.insert mid (env.box (pars.extents.getD [1, 1, 1])),
       { success := true, mesh_id := some mid,
         vertices_count := some (env.box (pars.extents.getD [1, 1, 1])).vertices.length,
         faces_count := some (env.box (pars.extents.getD [1, 1, 1])).faces.length,
         bounds := some (env.bounds (env.box (pars.extents.getD [1, 1, 1]))) }) := by
    unfold create_primitive
    dsimp only
    rw [hmid, htype]
    simp only [Option.getD_some, if_true]
    unfold finishCreate maybeTransform
    rw [htr]
  refine ⟨⟨hmain, ?_, ?_⟩, by decide, by decide, by decide, by decide⟩
  · rw [hmain]
    exact Registry.lookup_insert_self _ _ _
  · intro k hk
    rw [hmain]
    exact Registry.lookup_insert_ne reg _ k _ hk

/-- C10 witness: creating a box under the already-used name `a` succeeds
and replaces that entry, leaving `b` untouched. -/
theorem claim10_silent_replacement_witness :
    (create_primitive demoEnv regAB { mesh_id := some "a", «type» := some "box" }).2.success = true
    ∧ (create_primitive demoEnv regAB { mesh_id := some "a", «type» := some "box" }).1.lookup "b" =
        some { vertices := [(2, 0, 0)], faces := [] } := by
  have h := claim10_silent_replacement demoEnv regAB
    { mesh_id := some "a", «type» := some "box" } "a"
    { vertices := [(1, 0, 0)], faces := [] } rfl (by decide) rfl rfl
  constructor
  · rw [h.1.1]
  · rw [h.1.2.2 "b" (by decide)]
    decide

end MeshTool
